import Mathlib

/-!
Shallow embedding of the agrihealth backend (Express/MongoDB content API):
the auth middleware, role guard, article CRUD handlers with the mongoose
article schema, the two contact-route handlers, and the login handler.
HTTP statuses are modelled as `Nat`; the document store is a list of
records; external collaborators (the JWT library's verify, the password
hash check, URL validation) are function parameters.
-/

namespace AgriHealth

/-- A User record as the auth middleware and login flow see it:
identifier, email, enumerated role, stored credential hash. -/
structure User where
  id : String
  email : String
  role : String
  passwordHash : String
deriving DecidableEq, Repr

/-! ## middleware/auth.js -/

def loginRequiredMsg : String := "You are not logged in! Please log in to get access."

def userGoneMsg : String := "The user belonging to this token no longer exists."

/-- JavaScript `String.prototype.startsWith`, over the character list. -/
def jsStartsWith (s pre : String) : Bool :=
  s.data.take pre.data.length == pre.data

/-- Helper for `jsSplitOnSpace`: split a character list at every single
space. -/
def splitSpaceAux : List Char → List Char → List (List Char)
  | [], acc => [acc.reverse]
  | c :: cs, acc =>
    if c = ' ' then acc.reverse :: splitSpaceAux cs []
    else splitSpaceAux cs (c :: acc)

/-- JavaScript `String.prototype.split(' ')`: the pieces between single
spaces (consecutive spaces yield empty pieces, as in JavaScript). -/
def jsSplitOnSpace (s : String) : List String :=
  (splitSpaceAux s.data []).map String.mk

/-- Token extraction from the authorization header (`middleware/auth.js`
lines 24-30): if the header is present and starts with `Bearer`, the token
is `header.split(' ')[1]`; otherwise the token variable stays undefined. -/
def extractToken (authHeader : Option String) : Option String :=
  match authHeader with
  | none => none
  | some a => if jsStartsWith a "Bearer" then (jsSplitOnSpace a)[1]? else none

/-- JavaScript truthiness of the `!token` guard: the token is missing when
it is undefined (`none`) or the empty string. -/
def missingToken : Option String → Bool
  | none => true
  | some t => t.isEmpty

/-- What the auth middleware hands to `next`: an `AppError` with message and
statusCode, a raw thrown error forwarded by the catch block, or success with
the resolved user attached to the request. -/
inductive AuthOutcome where
  | nextError (message : String) (statusCode : Nat)
  | nextRaw (err : String)
  | proceed (u : User)
deriving DecidableEq, Repr

/-- `middleware/auth.js` module.exports: extract the bearer token, 401 if
missing, verify it (`jwt.verify`, a thrown error is caught and forwarded raw),
look up the embedded id (`User.findById`), 401 if the user no longer exists,
otherwise attach the user and continue. `verify` models `jwt.verify` with the
configured secret, `findById` models the user lookup. -/
def authMiddleware (verify : String → Except String String)
    (findById : String → Option User) (authHeader : Option String) : AuthOutcome :=
  match extractToken authHeader with
  | none => .nextError loginRequiredMsg 401
  | some t =>
    if t.isEmpty then .nextError loginRequiredMsg 401
    else
      match verify t with
      | .error e => .nextRaw e
      | .ok decodedId =>
        match findById decodedId with
        | none => .nextError userGoneMsg 401
        | some u => .proceed u

/-- A request either fails before the handler with an HTTP status, or reaches
the handler carrying the resolved user. -/
inductive AuthResult where
  | fail (status : Nat)
  | pass (u : User)
deriving DecidableEq, Repr

/-- Modelled from the spec: `middleware/error.js` (the Error Normalizer) is not
among the repository files; per the spec, a failed signature/expiry check
surfaces as `Unauthenticated` (HTTP 401), so a raw token-verification error
forwarded by the middleware's catch block is normalized to status 401, and an
`AppError` surfaces with its own statusCode. -/
def authPipeline (verify : String → Except String String)
    (findById : String → Option User) (authHeader : Option String) : AuthResult :=
  match authMiddleware verify findById authHeader with
  | .nextError _ s => .fail s
  | .nextRaw _ => .fail 401
  | .proceed u => .pass u

/-! ## restrictTo (role-based access control) -/

def forbiddenMsg : String := "You do not have permission to perform this action"

/-- The request context the role guard sees: a request already carrying the
resolved user attached by the auth middleware. -/
structure RequestCtx where
  user : User
deriving DecidableEq, Repr

/-- `restrictTo(...roles)` from `middleware/auth.js`: if the resolved user's
role is not among the configured roles, fail with a 403 `AppError`; otherwise
call `next()`, leaving the request unchanged. -/
def restrictTo (roles : List String) (req : RequestCtx) :
    Except (String × Nat) RequestCtx :=
  if !(roles.contains req.user.role) then .error (forbiddenMsg, 403)
  else .ok req

/-! ## models/Article.js (the mongoose articleSchema) -/

/-- An Article document as stored: the schema's fields plus the identifier
assigned at insertion and the `createdAt` default (`Date.now`, modelled as a
`Nat` timestamp). -/
structure Article where
  id : String
  title : String
  content : String
  category : String
  readTime : Int
  language : String
  imageUrl : Option String
  externalLink : Option String
  createdAt : Nat
deriving DecidableEq, Repr

/-- The fixed category enum of `articleSchema`. -/
def categoryValues : List String :=
  ["Chemical Safety", "Nutrition", "First Aid", "Mental Health", "Hygiene"]

/-- The fixed language enum of `articleSchema`. -/
def languageValues : List String :=
  ["English", "Français", "Kinyarwanda", "Swahili"]

/-- A raw create/update payload (`req.body`): every schema field may be
absent. -/
structure ArticlePayload where
  title : Option String := none
  content : Option String := none
  category : Option String := none
  readTime : Option Int := none
  language : Option String := none
  imageUrl : Option String := none
  externalLink : Option String := none
deriving DecidableEq, Repr

/-- Document validation of `articleSchema`: `title` required (the mongoose
required validator rejects undefined and the empty string), trimmed, at most
100 characters; `content` required, trimmed; `category` required and in the
category enum; `readTime` required; `language` required and in the language
enum; `imageUrl`/`externalLink` optional but, when present, must satisfy
`validator.isURL` (an external library, passed as a parameter). -/
def validateArticle (isURL : String → Bool) (p : ArticlePayload) : Bool :=
  (match p.title with
   | none => false
   | some s => !s.trim.isEmpty && s.trim.length ≤ 100) &&
  (match p.content with
   | none => false
   | some s => !s.trim.isEmpty) &&
  (match p.category with
   | none => false
   | some s => categoryValues.contains s) &&
  p.readTime.isSome &&
  (match p.language with
   | none => false
   | some s => languageValues.contains s) &&
  (match p.imageUrl with
   | none => true
   | some s => isURL s) &&
  (match p.externalLink with
   | none => true
   | some s => isURL s)

/-! ## controllers/articleController.js -/

/-- Modelled from the spec: the Persistence Service (mongoose/MongoDB, an
external collaborator) and `middleware/error.js` are not among the repository
files; per the spec, validation always precedes persistence (so the store is
unchanged on failure) and a schema violation surfaces as `ValidationFailed`
(HTTP 400). The schema checked is `validateArticle`, embedded from
`models/Article.js`; on success `Article.create` inserts the document with a
fresh identifier and the `Date.now` default for `createdAt`, and
`createArticle` responds 201 with the created record. Returns
(status, response data, store after the request). -/
def createArticle (isURL : String → Bool) (store : List Article)
    (p : ArticlePayload) (newId : String) (now : Nat) :
    Nat × Option Article × List Article :=
  if validateArticle isURL p then
    let a : Article :=
      { id := newId
        title := (p.title.getD "").trim
        content := (p.content.getD "").trim
        category := p.category.getD ""
        readTime := p.readTime.getD 0
        language := p.language.getD ""
        imageUrl := p.imageUrl
        externalLink := p.externalLink
        createdAt := now }
    (201, some a, store ++ [a])
  else (400, none, store)

/-- `Article.findById`: the document with the requested identifier, if any. -/
def findById (store : List Article) (id : String) : Option Article :=
  store.find? (fun a => a.id == id)

/-- `getArticle`: 404 `AppError` ("No article found with that ID") when no
document has the identifier, otherwise 200 with the article. -/
def getArticle (store : List Article) (id : String) : Nat × Option Article :=
  match findById store id with
  | none => (404, none)
  | some a => (200, some a)

/-- `deleteArticle`: `Article.findByIdAndDelete` removes the document with the
identifier if one exists; absent → 404 `AppError`, otherwise the handler
responds 204 with `data: null`. Returns (status, response data, store after
the request). -/
def deleteArticle (store : List Article) (id : String) :
    Nat × Option Article × List Article :=
  match findById store id with
  | none => (404, none, store)
  | some _ => (204, none, store.eraseP (fun a => a.id == id))

/-- Express `res.send` (reached through `res.json`) strips the payload for a
204 No Content or 304 response: the wire response carries no body. -/
def expressSend (status : Nat) (payload : String) : Option String :=
  if status == 204 || status == 304 then none else some payload

/-- One query-parameter equality constraint of the mongo filter built by
`getAllArticles`: `if (category) filter.category = category` — an absent or
empty-string parameter (JavaScript falsy) adds no constraint, a non-empty one
requires field equality. -/
def matchParam (p : Option String) (field : String) : Bool :=
  match p with
  | none => true
  | some s => if s.isEmpty then true else s == field

/-- The whole filter of `getAllArticles`: the category constraint and the
language constraint. -/
def matchesFilter (category language : Option String) (a : Article) : Bool :=
  matchParam category a.category && matchParam language a.language

/-- `.sort('-createdAt')`: creation time descending. -/
def sortByCreatedDesc (l : List Article) : List Article :=
  l.insertionSort (fun a b => b.createdAt ≤ a.createdAt)

/-- `getAllArticles`: find the documents matching the (possibly empty) filter,
sorted by creation time descending, and respond 200 with
`results: articles.length` and the articles. Returns
(status, results count, articles). -/
def getAllArticles (category language : Option String) (store : List Article) :
    Nat × Nat × List Article :=
  let articles := sortByCreatedDesc (store.filter (matchesFilter category language))
  (200, articles.length, articles)

/-! ## routes/contactRoutes.js (two variants in the repository) -/

/-- A contact-form submission (`req.body` destructured). -/
structure ContactPayload where
  name : String
  email : String
  subject : String
  message : String
deriving DecidableEq, Repr

/-- Outcome of the persistence call (`save`/`create`): success, or a thrown
database error carrying its internal message. -/
inductive SaveOutcome where
  | ok
  | dbError (message : String)
deriving DecidableEq, Repr

/-- The `routes/contactRoutes.js` POST handler: save the submission; on
success respond 201 with a fixed thank-you message, on a thrown error respond
500 with a fixed generic message (the internal error is only logged). Returns
(status, body message). -/
def contactHandlerCanonical (save : ContactPayload → SaveOutcome)
    (p : ContactPayload) : Nat × String :=
  match save p with
  | .ok => (201, "Thank you for your message! We will get back to you soon.")
  | .dbError _ => (500, "Something went wrong. Please try again later.")

/-- The second contact-route variant in the repository: `Contact.create`; on
success respond 201 "Message received!", on a thrown error respond 400 with
`{ error: err.message }` — the internal error message verbatim. Returns
(status, body message). -/
def contactHandlerLegacy (create : ContactPayload → SaveOutcome)
    (p : ContactPayload) : Nat × String :=
  match create p with
  | .ok => (201, "Message received!")
  | .dbError m => (400, m)

/-! ## Login handler -/

/-- Modelled from the spec: `controllers/authController.js` (the Login
handler) is not among the repository files. Per the spec, login resolves the
supplied email, verifies the password against the stored credential hash
(`checkPassword`, external), and on success issues a new credential token
(`signToken`, external) with status 200; on any mismatch it fails with
`Unauthenticated` 401 and a body that does not distinguish an unknown user
from a wrong password. Returns (status, body). -/
def loginHandler (users : List User) (checkPassword : String → String → Bool)
    (signToken : String → String) (email password : String) : Nat × String :=
  match users.find? (fun u => u.email == email) with
  | none => (401, "Incorrect email or password")
  | some u =>
    if checkPassword password u.passwordHash then (200, signToken u.id)
    else (401, "Incorrect email or password")

/-! ## Instances and helper lemmas -/

instance : IsTotal Article (fun a b => b.createdAt ≤ a.createdAt) :=
  ⟨fun a b => Nat.le_total b.createdAt a.createdAt⟩

instance : IsTrans Article (fun a b => b.createdAt ≤ a.createdAt) :=
  ⟨fun _ _ _ hab hbc => Nat.le_trans hbc hab⟩

/-- With pairwise-distinct identifiers, erasing the found document leaves no
document with that identifier. -/
theorem findById_eraseP_of_nodup (store : List Article) (id : String)
    (hnodup : (store.map (fun a => a.id)).Nodup) (a : Article)
    (h : findById store id = some a) :
    findById (store.eraseP (fun x => x.id == id)) id = none := by
  induction store with
  | nil => simp [findById] at h
  | cons x xs ih =>
    rw [List.map_cons, List.nodup_cons] at hnodup
    by_cases hx : x.id == id
    · have he : List.eraseP (fun y => y.id == id) (x :: xs) = xs :=
        List.eraseP_cons_of_pos hx
      rw [he]
      unfold findById
      rw [List.find?_eq_none]
      intro b hb hbeq
      simp only [beq_iff_eq] at hbeq hx
      exact hnodup.1 (by rw [hx, ← hbeq]; exact List.mem_map_of_mem (fun a => a.id) hb)
    · have he : List.eraseP (fun y => y.id == id) (x :: xs) =
          x :: List.eraseP (fun y => y.id == id) xs :=
        List.eraseP_cons_of_neg hx
      rw [he]
      unfold findById at h ⊢
      have hf : ∀ l : List Article,
          List.find? (fun y => y.id == id) (x :: l) =
            List.find? (fun y => y.id == id) l :=
        fun l => List.find?_cons_of_neg l hx
      rw [hf] at h ⊢
      exact ih hnodup.2 h

/-! ## Claim theorems -/

/-- C2: for every request context carrying a resolved user, the role guard
fails with Forbidden 403 exactly when the user's role is not in the allow-set;
when the role is allowed it passes the request through unchanged. -/
theorem restrictTo_forbidden_iff (roles : List String) (req : RequestCtx) :
    (restrictTo roles req = .error (forbiddenMsg, 403) ↔
      roles.contains req.user.role = false) ∧
    (restrictTo roles req = .ok req ↔ roles.contains req.user.role = true) := by
  unfold restrictTo
  cases h : roles.contains req.user.role <;> simp [h]

/-- C5: the list operation always responds 200 (also on an empty result), the
reported count equals the number of returned articles, and the returned
articles are exactly the records matching the filter, ordered by creation
time descending. -/
theorem getAllArticles_ok (category language : Option String)
    (store : List Article) :
    (getAllArticles category language store).1 = 200 ∧
    (getAllArticles category language store).2.1 =
      (getAllArticles category language store).2.2.length ∧
    List.Perm (getAllArticles category language store).2.2
      (store.filter (matchesFilter category language)) ∧
    List.Sorted (fun a b => b.createdAt ≤ a.createdAt)
      (getAllArticles category language store).2.2 := by
  refine ⟨rfl, rfl, ?_, ?_⟩
  · exact List.perm_insertionSort _ _
  · exact List.sorted_insertionSort _ _

/-- C9: for the list operation, an empty-string category or language query
parameter behaves exactly as an absent one (no constraint is added), and a
non-empty parameter applies the corresponding equality constraint. -/
theorem empty_param_is_absent (category language : Option String)
    (store : List Article) :
    getAllArticles (some "") language store =
      getAllArticles none language store ∧
    getAllArticles category (some "") store =
      getAllArticles category none store ∧
    (∀ (s : String) (lang : Option String) (st : List Article),
      s.isEmpty = false →
      getAllArticles (some s) lang st =
        (200,
         (sortByCreatedDesc
           (st.filter (fun a => (s == a.category) && matchParam lang a.language))).length,
         sortByCreatedDesc
           (st.filter (fun a => (s == a.category) && matchParam lang a.language)))) := by
  refine ⟨?_, ?_, ?_⟩
  · have h0 : "".isEmpty = true := rfl
    have hfe : matchesFilter (some "") language = matchesFilter none language := by
      funext a
      simp [matchesFilter, matchParam, h0]
    simp only [getAllArticles, hfe]
  · have h0 : "".isEmpty = true := rfl
    have hfe : matchesFilter category (some "") = matchesFilter category none := by
      funext a
      simp [matchesFilter, matchParam, h0]
    simp only [getAllArticles, hfe]
  · intro s lang st hs
    have hfe : matchesFilter (some s) lang =
        fun a => (s == a.category) && matchParam lang a.language := by
      funext a
      simp [matchesFilter, matchParam, hs]
    simp only [getAllArticles, hfe]

/-- C10: a header value that starts with "Bearer" but has no second
space-separated component makes the middleware take the missing-token branch
and fail 401 with the login-required message, whatever the verifier and user
lookup are (verification is never attempted). -/
theorem bearer_without_token_401 (verify : String → Except String String)
    (findById : String → Option User) (h : String)
    (hb : jsStartsWith h "Bearer" = true)
    (hs : (jsSplitOnSpace h)[1]? = none) :
    authMiddleware verify findById (some h) =
      .nextError loginRequiredMsg 401 := by
  have he : extractToken (some h) = none := by
    simp [extractToken, hb, hs]
  unfold authMiddleware
  rw [he]

/-- C10 witness: the header exactly "Bearer". -/
theorem bearer_without_token_401_witness :
    authMiddleware (fun t => .ok t) (fun _ => none) (some "Bearer") =
      .nextError loginRequiredMsg 401 :=
  bearer_without_token_401 (fun t => .ok t) (fun _ => none) "Bearer"
    (by decide) (by decide)

/-- C4: when no record has the identifier, get-by-id responds 404 and
delete-by-id responds 404 leaving the store unchanged; and (with the store's
identifiers pairwise distinct, as MongoDB guarantees for `_id`) a successful
delete of an existing identifier followed by a second delete of the same
identifier responds 404. -/
theorem getDelete_notFound_and_delete_idempotence (store : List Article)
    (id : String) (hnodup : (store.map (fun a => a.id)).Nodup) :
    (findById store id = none →
      getArticle store id = (404, none) ∧
      deleteArticle store id = (404, none, store)) ∧
    (∀ a, findById store id = some a →
      (deleteArticle store id).1 = 204 ∧
      (deleteArticle (deleteArticle store id).2.2 id).1 = 404) := by
  constructor
  · intro hnone
    exact ⟨by simp [getArticle, hnone], by simp [deleteArticle, hnone]⟩
  · intro a hsome
    have hafter := findById_eraseP_of_nodup store id hnodup a hsome
    constructor
    · simp [deleteArticle, hsome]
    · have h2 : (deleteArticle store id).2.2 =
          store.eraseP (fun x => x.id == id) := by
        simp [deleteArticle, hsome]
      rw [h2]
      simp [deleteArticle, hafter]

/-- C4 witness: one stored article, deleted once then deleted again; and a
get/delete of a missing identifier. -/
theorem getDelete_notFound_witness :
    (List.map (fun a => a.id)
      [({ id := "a1", title := "T", content := "C", category := "Nutrition",
          readTime := 3, language := "English", imageUrl := none,
          externalLink := none, createdAt := 5 } : Article)]).Nodup ∧
    getArticle
      [({ id := "a1", title := "T", content := "C", category := "Nutrition",
          readTime := 3, language := "English", imageUrl := none,
          externalLink := none, createdAt := 5 } : Article)] "zz" = (404, none) ∧
    (deleteArticle
      [({ id := "a1", title := "T", content := "C", category := "Nutrition",
          readTime := 3, language := "English", imageUrl := none,
          externalLink := none, createdAt := 5 } : Article)] "a1").1 = 204 ∧
    (deleteArticle
      (deleteArticle
        [({ id := "a1", title := "T", content := "C", category := "Nutrition",
            readTime := 3, language := "English", imageUrl := none,
            externalLink := none, createdAt := 5 } : Article)] "a1").2.2
      "a1").1 = 404 := by
  have hnodup : (List.map (fun a => a.id)
      [({ id := "a1", title := "T", content := "C", category := "Nutrition",
          readTime := 3, language := "English", imageUrl := none,
          externalLink := none, createdAt := 5 } : Article)]).Nodup := by
    decide
  refine ⟨hnodup, ?_, ?_, ?_⟩
  · exact ((getDelete_notFound_and_delete_idempotence _ "zz" hnodup).1 (by decide)).1
  · exact ((getDelete_notFound_and_delete_idempotence _ "a1" hnodup).2
      ({ id := "a1", title := "T", content := "C", category := "Nutrition",
         readTime := 3, language := "English", imageUrl := none,
         externalLink := none, createdAt := 5 } : Article) (by decide)).1
  · exact ((getDelete_notFound_and_delete_idempotence _ "a1" hnodup).2
      ({ id := "a1", title := "T", content := "C", category := "Nutrition",
         readTime := 3, language := "English", imageUrl := none,
         externalLink := none, createdAt := 5 } : Article) (by decide)).2

/-- C7: deleting an existing identifier (store identifiers pairwise distinct)
removes the record, the response status is 204 with `data: null`, and the wire
response carries no body whatever payload is handed to Express. -/
theorem delete_existing_204_no_body (store : List Article) (id : String)
    (a : Article) (hnodup : (store.map (fun a => a.id)).Nodup)
    (h : findById store id = some a) :
    (deleteArticle store id).1 = 204 ∧
    (deleteArticle store id).2.1 = none ∧
    findById (deleteArticle store id).2.2 id = none ∧
    (∀ payload, expressSend (deleteArticle store id).1 payload = none) := by
  have hafter := findById_eraseP_of_nodup store id hnodup a h
  refine ⟨by simp [deleteArticle, h], by simp [deleteArticle, h], ?_, ?_⟩
  · have h2 : (deleteArticle store id).2.2 =
        store.eraseP (fun x => x.id == id) := by
      simp [deleteArticle, h]
    rw [h2]
    exact hafter
  · intro payload
    have h1 : (deleteArticle store id).1 = 204 := by simp [deleteArticle, h]
    rw [h1]
    rfl

/-- C7 witness: deleting the only stored article. -/
theorem delete_existing_204_no_body_witness :
    (deleteArticle
      [({ id := "a1", title := "T", content := "C", category := "Nutrition",
          readTime := 3, language := "English", imageUrl := none,
          externalLink := none, createdAt := 5 } : Article)] "a1").1 = 204 ∧
    (deleteArticle
      [({ id := "a1", title := "T", content := "C", category := "Nutrition",
          readTime := 3, language := "English", imageUrl := none,
          externalLink := none, createdAt := 5 } : Article)] "a1").2.1 = none ∧
    findById
      (deleteArticle
        [({ id := "a1", title := "T", content := "C", category := "Nutrition",
            readTime := 3, language := "English", imageUrl := none,
            externalLink := none, createdAt := 5 } : Article)] "a1").2.2
      "a1" = none ∧
    expressSend
      (deleteArticle
        [({ id := "a1", title := "T", content := "C", category := "Nutrition",
            readTime := 3, language := "English", imageUrl := none,
            externalLink := none, createdAt := 5 } : Article)] "a1").1
      "ignored" = none := by
  have hmain := delete_existing_204_no_body
    [({ id := "a1", title := "T", content := "C", category := "Nutrition",
        readTime := 3, language := "English", imageUrl := none,
        externalLink := none, createdAt := 5 } : Article)] "a1"
    ({ id := "a1", title := "T", content := "C", category := "Nutrition",
       readTime := 3, language := "English", imageUrl := none,
       externalLink := none, createdAt := 5 } : Article)
    (by decide) (by decide)
  exact ⟨hmain.1, hmain.2.1, hmain.2.2.1, hmain.2.2.2 "ignored"⟩

/-- C1: the auth pipeline fails before the handler exactly with status 401,
and it fails iff no bearer token is present (absent header, non-Bearer header,
or no second component), or token verification fails, or the token is valid
but no user with the embedded identifier exists; in every other case it
passes the resolved user onward. -/
theorem authPipeline_unauthenticated_iff (verify : String → Except String String)
    (findById : String → Option User) (h : Option String) :
    (∀ s, authPipeline verify findById h = .fail s → s = 401) ∧
    ((∃ s, authPipeline verify findById h = .fail s) ↔
      (missingToken (extractToken h) = true ∨
       (∃ t e, extractToken h = some t ∧ t.isEmpty = false ∧
         verify t = .error e) ∨
       (∃ t i, extractToken h = some t ∧ t.isEmpty = false ∧
         verify t = .ok i ∧ findById i = none))) ∧
    (∀ u, authPipeline verify findById h = .pass u ↔
      (∃ t i, extractToken h = some t ∧ t.isEmpty = false ∧
        verify t = .ok i ∧ findById i = some u)) := by
  cases hext : extractToken h with
  | none =>
    simp [authPipeline, authMiddleware, hext, missingToken]
  | some t =>
    cases ht : t.isEmpty with
    | true =>
      simp [authPipeline, authMiddleware, hext, ht, missingToken]
    | false =>
      cases hv : verify t with
      | error e =>
        simp [authPipeline, authMiddleware, hext, ht, hv, missingToken]
      | ok i =>
        cases hf : findById i with
        | none =>
          simp [authPipeline, authMiddleware, hext, ht, hv, hf, missingToken]
        | some u =>
          simp [authPipeline, authMiddleware, hext, ht, hv, hf, missingToken]

/-- C3: a create payload missing one of the required fields (title, content,
category, readTime, language) or with a category or language outside the
fixed enum fails validation before any write: the response is 400 and the
store is unchanged. -/
theorem create_invalid_400_store_unchanged (isURL : String → Bool)
    (store : List Article) (p : ArticlePayload) (newId : String) (now : Nat)
    (h : p.title = none ∨ p.content = none ∨ p.category = none ∨
         p.readTime = none ∨ p.language = none ∨
         (∃ c, p.category = some c ∧ categoryValues.contains c = false) ∨
         (∃ l, p.language = some l ∧ languageValues.contains l = false)) :
    createArticle isURL store p newId now = (400, none, store) := by
  have hval : validateArticle isURL p = false := by
    rcases h with h1 | h1 | h1 | h1 | h1 | ⟨c, hc, hcv⟩ | ⟨l, hl, hlv⟩
    · simp [validateArticle, h1]
    · simp [validateArticle, h1]
    · simp [validateArticle, h1]
    · simp [validateArticle, h1]
    · simp [validateArticle, h1]
    · have hcv2 : c ∉ categoryValues := by simpa using hcv
      simp [validateArticle, hc, hcv2]
    · have hlv2 : l ∉ languageValues := by simpa using hlv
      simp [validateArticle, hl, hlv2]
  simp [createArticle, hval]

/-- C3 witness: the empty payload (every required field missing) against the
empty store. -/
theorem create_invalid_400_store_unchanged_witness :
    createArticle (fun _ => true) [] {} "id1" 0 = (400, none, []) :=
  create_invalid_400_store_unchanged (fun _ => true) [] {} "id1" 0
    (Or.inl rfl)

/-- C6 as stated is false at a concrete input: the second contact-route
variant in the repository answers a thrown persistence error with
`{ error: err.message }`, forwarding the internal exception message
verbatim as the client-facing body. -/
theorem contactLegacy_forwards_internal_detail :
    contactHandlerLegacy
      (fun _ => .dbError "connect ECONNREFUSED 127.0.0.1:27017")
      ⟨"A", "a@b.com", "Hi", "Test"⟩ =
      (400, "connect ECONNREFUSED 127.0.0.1:27017") := rfl

/-- C6 amended: the canonical contact route answers every persistence failure
with the fixed 500 body, which is independent of (and never contains) the
internal error message. -/
theorem contactCanonical_no_internal_detail
    (save : ContactPayload → SaveOutcome) (p : ContactPayload) (m : String)
    (h : save p = .dbError m) :
    contactHandlerCanonical save p =
      (500, "Something went wrong. Please try again later.") := by
  simp [contactHandlerCanonical, h]

/-- C6 witness: a concrete connection error. -/
theorem contactCanonical_no_internal_detail_witness :
    contactHandlerCanonical
      (fun _ => .dbError "connect ECONNREFUSED 127.0.0.1:27017")
      ⟨"A", "a@b.com", "Hi", "Test"⟩ =
      (500, "Something went wrong. Please try again later.") :=
  contactCanonical_no_internal_detail
    (fun _ => .dbError "connect ECONNREFUSED 127.0.0.1:27017")
    ⟨"A", "a@b.com", "Hi", "Test"⟩
    "connect ECONNREFUSED 127.0.0.1:27017" rfl

/-- C8: a wrong password for an existing user and a login for a nonexistent
email produce the identical Unauthenticated response — status 401 and the
same body — so the client cannot tell the two causes apart. -/
theorem login_failures_indistinguishable (users : List User)
    (checkPassword : String → String → Bool) (signToken : String → String)
    (e1 p1 e2 p2 : String) (u : User)
    (h1 : users.find? (fun x => x.email == e1) = some u)
    (h2 : checkPassword p1 u.passwordHash = false)
    (h3 : users.find? (fun x => x.email == e2) = none) :
    loginHandler users checkPassword signToken e1 p1 =
      loginHandler users checkPassword signToken e2 p2 ∧
    loginHandler users checkPassword signToken e1 p1 =
      (401, "Incorrect email or password") := by
  constructor
  · simp [loginHandler, h1, h2, h3]
  · simp [loginHandler, h1, h2]

/-- C8 witness: one admin user; wrong password for the admin's email versus
a login with an unknown email. -/
theorem login_failures_indistinguishable_witness :
    loginHandler [({ id := "u1", email := "a@b.com", role := "admin",
                     passwordHash := "hash" } : User)] (fun _ _ => false)
      (fun i => i) "a@b.com" "wrong" =
      loginHandler [({ id := "u1", email := "a@b.com", role := "admin",
                       passwordHash := "hash" } : User)] (fun _ _ => false)
        (fun i => i) "nobody@x.com" "pw" ∧
    loginHandler [({ id := "u1", email := "a@b.com", role := "admin",
                     passwordHash := "hash" } : User)] (fun _ _ => false)
      (fun i => i) "a@b.com" "wrong" = (401, "Incorrect email or password") :=
  login_failures_indistinguishable
    [({ id := "u1", email := "a@b.com", role := "admin",
        passwordHash := "hash" } : User)] (fun _ _ => false) (fun i => i)
    "a@b.com" "wrong" "nobody@x.com" "pw"
    ({ id := "u1", email := "a@b.com", role := "admin",
       passwordHash := "hash" } : User)
    (by decide) rfl (by decide)

end AgriHealth
